import Mathlib

/-!
Verification development for the swagger client module (swaggerpy/client.py
of the tornado-swagger repository).

The file shallowly embeds the operation-invocation engine of the module:

* `Value` models the Python values that flow through operation keyword
  arguments (None, str, int, list of str, dict keyed by str).
* `processParams` is the parameter-binding loop of `Operation.__call__`
  (lines 72-106 of client.py).
* `serializeBody` and `dispatchStep` are the body-serialization and the
  HTTP / WebSocket dispatch that follow the loop (lines 110-133).
* `initLoadCallback` is the load-completion callback wiring of
  `SwaggerClient.__init__` (lines 237-245).
* `SwaggerClientState` with `api_docs` / `resources` / `load` models the
  guarded client attributes (lines 206-227 and 247-267).

Strings are treated as sequences of unicode scalar values; the percent
encoder assumes the single-byte (ASCII) regime in which the original
Python 2 code operates.  Network effects are represented by the
`Dispatched` request descriptor that the code hands to the transport;
an invocation either produces exactly one `Dispatched` value or fails
with the raised message before any transport call.
-/

/-- Python values appearing as operation keyword arguments: `None`, `str`,
`int`, lists of strings, and string-keyed dictionaries. -/
inductive Value : Type where
  | vNone : Value
  | vStr : String → Value
  | vInt : Int → Value
  | vList : List String → Value
  | vDict : List (String × Value) → Value

/-- A Python dict with string keys, modelled as an association list in
insertion order (Python dict keys are unique; insertion order is the order
in which the code adds entries). -/
abbrev Dict := List (String × Value)

/-- Model of `kwargs.get(name)`: the value stored under `name`, or `None` when the
key is absent (mirrors `dict.get`, which returns `None` for missing keys). -/
def kget : Dict → String → Value
  | [], _ => Value.vNone
  | (k, v) :: rest, n => if k = n then v else kget rest n

/-- Model of `del kwargs[name]`: remove the entry stored under `name`. -/
def kdel : Dict → String → Dict
  | [], _ => []
  | (k, v) :: rest, n => if k = n then kdel rest n else (k, v) :: kdel rest n

/-- Model of `d[name] = value`: dict assignment; overwrites in place when the key is
present, appends otherwise. -/
def dictSet : Dict → String → Value → Dict
  | [], k, v => [(k, v)]
  | (k0, v0) :: rest, k, v =>
    if k0 = k then (k0, v) :: rest else (k0, v0) :: dictSet rest k v

/-- Model of `old.update(new)`: Python dict update, assigning every entry of `new`
into `old` in order. -/
def dictUpdate (old new : Dict) : Dict :=
  new.foldl (fun acc kv => dictSet acc kv.1 kv.2) old

/-- Joins a list of strings with a separator, as Python `sep.join(xs)`. -/
def joinSep (sep : String) : List String → String
  | [] => ""
  | [x] => x
  | x :: xs => x ++ sep ++ joinSep sep xs

/-- Line 76-77 of client.py: a list argument is collapsed to the single
comma-joined string before any location processing; every other value
passes through unchanged (`isinstance(value, list)` only matches lists). -/
def collapse : Value → Value
  | Value.vList xs => Value.vStr (joinSep "," xs)
  | v => v

mutual
/-- Python `repr` of a value, used when `str` falls back to `repr` for
containers (simplified to the plain quoting of `repr` on ASCII data). -/
def pyRepr : Value → String
  | Value.vNone => "None"
  | Value.vStr s => "\x27" ++ s ++ "\x27"
  | Value.vInt n => toString n
  | Value.vList xs => "[" ++ pyReprStrList xs ++ "]"
  | Value.vDict d => "\x7b" ++ pyReprEntries d ++ "\x7d"

/-- Python `repr` of a list of strings, comma separated. -/
def pyReprStrList : List String → String
  | [] => ""
  | [x] => "\x27" ++ x ++ "\x27"
  | x :: xs => "\x27" ++ x ++ "\x27" ++ ", " ++ pyReprStrList xs

/-- Python `repr` of dict entries, comma separated. -/
def pyReprEntries : List (String × Value) → String
  | [] => ""
  | [(k, v)] => "\x27" ++ k ++ "\x27: " ++ pyRepr v
  | (k, v) :: rest => "\x27" ++ k ++ "\x27: " ++ pyRepr v ++ ", " ++ pyReprEntries rest
end

/-- Python `str(value)` as used on path parameters and in `urlencode`:
identity on strings, decimal rendering of ints, `repr`-style rendering of
containers and None (which the code applies `str` to only in corner uses). -/
def pyStr : Value → String
  | Value.vNone => "None"
  | Value.vStr s => s
  | Value.vInt n => toString n
  | Value.vList xs => "[" ++ pyReprStrList xs ++ "]"
  | Value.vDict d => "\x7b" ++ pyReprEntries d ++ "\x7d"

/-- The characters Python 2 `urllib` never escapes: ASCII letters, digits,
and the three punctuation characters of `always_safe` that `quote_plus`
keeps (underscore, dot, hyphen). -/
def alwaysSafeChar (c : Char) : Bool :=
  ('A' ≤ c && c ≤ 'Z') || ('a' ≤ c && c ≤ 'z') || ('0' ≤ c && c ≤ '9') ||
    c == '_' || c == '.' || c == '-'

/-- Uppercase hexadecimal digit for `n < 16`. -/
def hexDigitUpper (n : Nat) : Char :=
  if n < 10 then Char.ofNat (48 + n) else Char.ofNat (55 + n)

/-- Percent-encoding of one character (single-byte ASCII regime of the
Python 2 `str` type). -/
def pctEncode (c : Char) : String :=
  String.mk ['%', hexDigitUpper (c.toNat / 16), hexDigitUpper (c.toNat % 16)]

/-- Model of `urllib.quote_plus`: spaces become `+`, every other character outside
`always_safe` is percent-encoded (the default empty `safe` set, so all
reserved characters are escaped). -/
def quotePlus (s : String) : String :=
  String.join (s.toList.map fun c =>
    if alwaysSafeChar c then String.mk [c]
    else if c == ' ' then "+" else pctEncode c)

/-- Does `pat` occur at the head of `cs`? -/
def leadsWith : List Char → List Char → Bool
  | [], _ => true
  | _ :: _, [] => false
  | p :: ps, c :: cs => p == c && leadsWith ps cs

/-- Fuel-driven worker for `strReplace`; the fuel is one more than the
length of the scanned list, which is enough because every step consumes at
least one character when the pattern is nonempty. -/
def replaceAuxFuel (pat repl : List Char) : Nat → List Char → List Char
  | 0, cs => cs
  | _ + 1, [] => []
  | fuel + 1, c :: cs =>
    if leadsWith pat (c :: cs) then
      repl ++ replaceAuxFuel pat repl fuel (List.drop pat.length (c :: cs))
    else
      c :: replaceAuxFuel pat repl fuel cs

/-- Python `str.replace`: replaces every non-overlapping occurrence of
`pat` left to right (the client only ever passes nonempty patterns of the
form `"\x7bname\x7d"`). -/
def strReplace (s pat repl : String) : String :=
  String.mk (replaceAuxFuel pat.toList repl.toList (s.toList.length + 1) s.toList)

/-- Model of `urllib.urlencode(params)`: ampersand-joined `quote_plus(str(k)) ++ "="
++ quote_plus(str(v))` pairs, in dict order. -/
def urlencode (d : Dict) : String :=
  joinSep "&" (d.map fun kv => quotePlus kv.1 ++ "=" ++ quotePlus (pyStr kv.2))

/-- The reversed tail of a character list up to and including the first
`/` (helper for `upToLastSlash`). -/
def tailToSlash : List Char → List Char
  | [] => []
  | c :: cs => if c == '/' then c :: cs else tailToSlash cs

/-- Everything in `s` up to and including the last `/` (empty when `s` has
no slash). -/
def upToLastSlash (s : String) : String :=
  String.mk (tailToSlash s.toList.reverse).reverse

/-- Characters of a string before its first colon (all of them when no
colon occurs); helper for the scheme extraction of `urlparse`. -/
def beforeColon : List Char → List Char
  | [] => []
  | c :: cs => if c == ':' then [] else c :: beforeColon cs

/-- Characters admissible in a URL scheme (Python 2 `scheme_chars`):
ASCII letters, digits, plus, hyphen and dot. -/
def schemeChar (c : Char) : Bool :=
  ('A' ≤ c && c ≤ 'Z') || ('a' ≤ c && c ≤ 'z') || ('0' ≤ c && c ≤ '9') ||
    c == '+' || c == '-' || c == '.'

/-- The scheme of a URL as Python 2 `urlparse` extracts it: the lowercased
run before the first colon when all of its characters are scheme
characters, and the empty scheme otherwise (in particular when the URL has
no colon at all). -/
def urlScheme (s : String) : String :=
  if (beforeColon s.toList).length = s.toList.length then ""
  else if (beforeColon s.toList).all schemeChar then
    String.mk ((beforeColon s.toList).map Char.toLower)
  else ""

/-- Python 2 `urlparse.uses_relative`: the schemes for which `urljoin`
resolves relative references.  `ws` and `wss` are absent — they were added
only to the Python 3 `urllib.parse` lists. -/
def usesRelative : List String :=
  ["ftp", "http", "gopher", "nntp", "imap", "wais", "file", "https", "shttp",
   "mms", "prospero", "rtsp", "rtspu", "", "sftp", "svn", "svn+ssh"]

/-- Model of `urlparse.urljoin(base, rel)`, restricted to the reference
shapes the client produces: `rel` is the output of `urlencode`, hence
either empty or a relative reference containing no colon, slash, question
mark or hash (`quote_plus` escapes them all), so `rel` parses with the
default scheme of `base` and Python's guard `scheme != bscheme or scheme
not in uses_relative` reduces to the membership of the base scheme in
`uses_relative`; the base is an absolute URL whose path contains a slash.
An empty `base` returns `rel` and an empty `rel` returns `base`; when the
base scheme resolves relative references (`http`, `https`, ...), `rel`
replaces everything after the last slash of `base`; for any other base
scheme — notably the rewritten `ws`/`wss` — `urljoin` returns `rel`
unchanged. -/
def urljoin (base rel : String) : String :=
  if base = "" then rel
  else if rel = "" then base
  else if usesRelative.contains (urlScheme base) then upToLastSlash base ++ rel
  else rel

/-- Model of `re.sub("^http", "ws", uri)`: rewrite a leading `http` to `ws` (so
`https` becomes `wss`); anchored, hence at most one substitution. -/
def wsScheme (u : String) : String :=
  if leadsWith ['h', 't', 't', 'p'] u.toList then
    "ws" ++ String.mk (u.toList.drop 4)
  else u

/-- Message of line 101-103: missing required parameter. -/
def missingMsg (p nick : String) : String :=
  "Missing required parameter \x27" ++ p ++ "\x27 for \x27" ++ nick ++ "\x27"

/-- Message of line 92-93: body parameters require dict input. -/
def dictBodyMsg : String :=
  "Parameters of type \x27body\x27 require dict input"

/-- Message of line 95-97: unsupported paramType. -/
def badParamTypeMsg (t : String) : String :=
  "Unsupported paramType " ++ t

/-- Message of line 105-106: leftover keyword arguments, with the Python
`%r` rendering of `kwargs.keys()`. -/
def unknownParamsMsg (nick : String) (keys : List String) : String :=
  "\x27" ++ nick ++ "\x27 does not have parameters [" ++
    joinSep ", " (keys.map fun k => "\x27" ++ k ++ "\x27") ++ "]"

/-- Message of line 119-120: body data on a websocket operation (the typo
is the one in the source). -/
def wsBodyMsg : String :=
  "Sending body data with websockets not implmented"

/-- One declared parameter of an operation: `name`, `paramType` and
`required` fields of the parameter json. -/
structure Param where
  name : String
  paramType : String
  required : Bool

/-- The operation json as consumed by `Operation.__call__`: `nickname`,
`httpMethod`, `is_websocket` and `parameters`. -/
structure OpSpec where
  nickname : String
  httpMethod : String
  is_websocket : Bool
  parameters : List Param

/-- The mutable locals of the binding loop: `uri`, `params`, `data` and
the shrinking `kwargs` working set. -/
structure BindState where
  uri : String
  params : Dict
  data : Option Dict
  kwargs : Dict

/-- The parameter-binding loop of `Operation.__call__` (lines 72-103),
iterating over the declared parameters in order and threading the locals.
List values are collapsed to comma-joined strings; a present value is
routed by `paramType` (path substitution with `quote_plus`, query-map
assignment, body-dict merge with the truthiness test of `if data:`), then
consumed from `kwargs`; an absent value on a required parameter raises. -/
def processParams (nick : String) : List Param → BindState → Except String BindState
  | [], st => Except.ok st
  | p :: rest, st =>
    match collapse (kget st.kwargs p.name) with
    | Value.vNone =>
      if p.required then Except.error (missingMsg p.name nick)
      else processParams nick rest st
    | v =>
      if p.paramType = "path" then
        processParams nick rest
          ⟨strReplace st.uri ("\x7b" ++ p.name ++ "\x7d") (quotePlus (pyStr v)),
           st.params, st.data, kdel st.kwargs p.name⟩
      else if p.paramType = "query" then
        processParams nick rest
          ⟨st.uri, dictSet st.params p.name v, st.data, kdel st.kwargs p.name⟩
      else if p.paramType = "body" then
        match v with
        | Value.vDict dv =>
          processParams nick rest
            ⟨st.uri, st.params,
             some (match st.data with
                   | some d => if d.isEmpty then dv else dictUpdate d dv
                   | none => dv),
             kdel st.kwargs p.name⟩
        | _ => Except.error dictBodyMsg
      else Except.error (badParamTypeMsg p.paramType)

/-- JSON string literal (`json.dumps` of an ASCII string: double quotes,
backslash and quote escaped). -/
def jsonStrLit (s : String) : String :=
  "\"" ++ String.join (s.toList.map fun c =>
    if c == '\\' then "\\\\" else if c == '"' then "\\\"" else String.mk [c]) ++ "\""

mutual
/-- Python `json.dumps` of one value. -/
def jsonVal : Value → String
  | Value.vNone => "null"
  | Value.vStr s => jsonStrLit s
  | Value.vInt n => toString n
  | Value.vList xs => "[" ++ joinSep ", " (xs.map jsonStrLit) ++ "]"
  | Value.vDict d => "\x7b" ++ jsonEntries d ++ "\x7d"

/-- Python `json.dumps` rendering of dict entries, in dict order with the default
`", "` and `": "` separators. -/
def jsonEntries : List (String × Value) → String
  | [] => ""
  | [(k, v)] => jsonStrLit k ++ ": " ++ jsonVal v
  | (k, v) :: rest => jsonStrLit k ++ ": " ++ jsonVal v ++ ", " ++ jsonEntries rest
end

/-- Python `json.dumps` of the accumulated body dict. -/
def jsonDumps (d : Dict) : String :=
  "\x7b" ++ jsonEntries d ++ "\x7d"

/-- Lines 110-113: when the accumulated body dict is truthy (non-None and
non-empty) it is serialized with `json.dumps` and the two json headers are
attached; otherwise body and headers stay `None`. -/
def serializeBody (data : Option Dict) : Option String × Option (List (String × String)) :=
  match data with
  | none => (none, none)
  | some d =>
    if d.isEmpty then (none, none)
    else (some (jsonDumps d), some [("Content-type", "application/json"),
                                    ("Accept", "application/json")])

/-- The one transport call an invocation hands to its collaborator: either
an `AsyncHTTPClient.fetch(url, method, body, headers)` or a
`websocket_connect(url)` (the message callback is registered on the
connection and carries no request data). -/
inductive Dispatched : Type where
  | httpFetch : String → String → Option String → Option (List (String × String)) → Dispatched
  | wsConnect : String → Dispatched

/-- An `Operation` object: the bound uri template and the operation json
(the shared http client handle carries no data and is omitted). -/
structure OperationObj where
  uri : String
  json : OpSpec

/-- Lines 104-133 after the binding loop: leftover kwargs raise the
unknown-parameter error; otherwise the body is serialized, and the request
is dispatched as a websocket connect (with the scheme rewritten and body
data rejected) or an http fetch, in both cases to
`urljoin(uri, urlencode(params))`. -/
def dispatchStep (o : OperationObj) (st : BindState) : Except String Dispatched :=
  if st.kwargs.isEmpty then
    let bh := serializeBody st.data
    if o.json.is_websocket then
      match bh.1 with
      | some _ => Except.error wsBodyMsg
      | none => Except.ok (Dispatched.wsConnect (urljoin (wsScheme st.uri) (urlencode st.params)))
    else
      Except.ok (Dispatched.httpFetch (urljoin st.uri (urlencode st.params))
        o.json.httpMethod bh.1 bh.2)
  else
    Except.error (unknownParamsMsg o.json.nickname (st.kwargs.map Prod.fst))

/-- Model of `Operation.__call__`: bind the keyword arguments against the declared
parameters, then dispatch.  The result is the single transport call made,
or the raised message (in which case no transport call happens). -/
def OperationObj.call (o : OperationObj) (kwargs : Dict) : Except String Dispatched :=
  match processParams o.json.nickname o.json.parameters ⟨o.uri, [], none, kwargs⟩ with
  | Except.error e => Except.error e
  | Except.ok st => dispatchStep o st

/-- Case-insensitive comparison of HTTP header field names. -/
def headerNamesMatchCI (a b : String) : Bool :=
  (a.toList.map Char.toLower) == (b.toList.map Char.toLower)

/-- The load-completion wiring of `SwaggerClient.__init__` (lines 237-245):
`load` is a coroutine, so `future` is never `None` and the registered
`callback(f)` runs when the load future settles.  The callback first calls
`f.result()` — which re-raises a load failure out of the callback — and
only then calls `on_load()` when one was supplied.  The result records the
re-raised error, or which of the success paths ran: `ok b` means the
callback returned normally with `on_load` having fired iff `b`. -/
def initLoadCallback {ε α : Type} (loadOutcome : Except ε α) (onLoadSupplied : Bool) :
    Except ε Bool :=
  match loadOutcome with
  | Except.error e => Except.error e
  | Except.ok _ => Except.ok onLoadSupplied

/-- Whether the supplied `on_load` callback actually ran during the
completion wiring. -/
def onLoadFired {ε : Type} : Except ε Bool → Bool
  | Except.ok b => b
  | Except.error _ => false

/-- One api entry of an api declaration: its `path` and `operations`. -/
structure ApiEntry where
  path : String
  operations : List OpSpec

/-- One api declaration: `basePath` plus its api entries. -/
structure ApiDecl where
  basePath : String
  apis : List ApiEntry

/-- One entry of the resource listing, after the enrichment passes: the
derived `name` and the attached `api_declaration`. -/
structure ListingApi where
  name : String
  api_declaration : ApiDecl

/-- The processed resource listing (`api_docs`): `basePath` and apis. -/
structure ApiDocs where
  basePath : String
  apis : List ListingApi

/-- Model of `Resource._build_operation` (lines 187-197): the operation uri is
`decl.basePath + api.path`. -/
def buildOperation (decl : ApiDecl) (api : ApiEntry) (oper : OpSpec) : OperationObj :=
  ⟨decl.basePath ++ api.path, oper⟩

/-- Generic dict assignment for non-`Value` payloads (same semantics as
`dictSet`). -/
def odictSet {β : Type} : List (String × β) → String → β → List (String × β)
  | [], k, v => [(k, v)]
  | (k0, v0) :: rest, k, v =>
    if k0 = k then (k0, v) :: rest else (k0, v0) :: odictSet rest k v

/-- The operations dict built by `Resource.__init__` (lines 148-151): one
`Operation` per operation of every api entry, keyed by nickname; a
duplicate nickname overwrites (dict comprehension, last write wins). -/
def buildOperations (r : ListingApi) : List (String × OperationObj) :=
  r.api_declaration.apis.foldl
    (fun acc api => api.operations.foldl
      (fun acc2 oper => odictSet acc2 oper.nickname (buildOperation r.api_declaration api oper))
      acc)
    []

/-- A built `Resource`: its json and its operations dict. -/
structure ResourceObj where
  json : ListingApi
  operations : List (String × OperationObj)

/-- Model of `Resource(resource, http_client)` construction. -/
def buildResource (r : ListingApi) : ResourceObj :=
  ⟨r, buildOperations r⟩

/-- The resources dict built at the end of `SwaggerClient.load` (lines
265-267): one `Resource` per listing api, keyed by its derived name. -/
def buildResources (d : ApiDocs) : List (String × ResourceObj) :=
  d.apis.foldl (fun acc r => odictSet acc r.name (buildResource r)) []

/-- The two guarded fields of a `SwaggerClient`: `_api_docs` and
`_resources`, both `None` until `load` assigns them. -/
structure SwaggerClientState where
  _api_docs : Option ApiDocs
  _resources : Option (List (String × ResourceObj))

/-- A freshly constructed, not yet loaded client (class defaults
`_api_docs = None`, `_resources = None`). -/
def freshClient : SwaggerClientState :=
  ⟨none, none⟩

/-- The `api_docs` property (lines 209-213): raises `Not loaded` while
`_api_docs` is `None`, otherwise returns the stored document. -/
def SwaggerClientState.api_docs (c : SwaggerClientState) : Except String ApiDocs :=
  match c._api_docs with
  | none => Except.error "Not loaded"
  | some d => Except.ok d

/-- The `resources` property (lines 219-223): raises `Not loaded` while
`_resources` is `None`, otherwise returns the stored dict. -/
def SwaggerClientState.resources (c : SwaggerClientState) :
    Except String (List (String × ResourceObj)) :=
  match c._resources with
  | none => Except.error "Not loaded"
  | some r => Except.ok r

/-- Model of `SwaggerClient.load` (lines 247-267) on its success path: store the
(processed) resource listing in `_api_docs` and build `_resources` from
its apis.  `doc` stands for the document after the loader enrichment
passes have run. -/
def SwaggerClientState.load (_c : SwaggerClientState) (doc : ApiDocs) : SwaggerClientState :=
  ⟨some doc, some (buildResources doc)⟩

/-- Holds of a `Value` exactly when Python `value is None` holds. -/
def isNoneV : Value → Bool
  | Value.vNone => true
  | _ => false

/-- Holds of a `Value` that the body branch accepts or skips: `None`
(skipped) or a dict (merged). -/
def isDictOrNone : Value → Bool
  | Value.vNone => true
  | Value.vDict _ => true
  | _ => false

/-- The paramType strings line 80-97 handles without the assertion error. -/
def validPT (t : String) : Bool :=
  t == "path" || t == "query" || t == "body"

/-- Substring test on character lists (used to state that an error message
does not even mention a parameter name). -/
def containsSub (needle : List Char) : List Char → Bool
  | [] => needle.isEmpty
  | c :: cs => leadsWith needle (c :: cs) || containsSub needle cs

/-- Python truthiness of the accumulated body dict, the test of `if data:`
on line 110 (and, via the serialized string, line 118): `None` and the
empty dict are falsy. -/
def dataTruthy : Option Dict → Bool
  | none => false
  | some d => !d.isEmpty

/-! Helper lemmas about the binding primitives. -/

theorem isNoneV_eq_true_iff (v : Value) : isNoneV v = true ↔ v = Value.vNone := by
  cases v <;> simp [isNoneV]

theorem collapse_eq_vNone_iff (v : Value) : collapse v = Value.vNone ↔ v = Value.vNone := by
  cases v <;> simp [collapse]

theorem collapse_ne_vList (v : Value) (xs : List String) : collapse v ≠ Value.vList xs := by
  cases v <;> simp [collapse]

theorem validPT_cases (t : String) (h : validPT t = true) :
    t = "path" ∨ t = "query" ∨ t = "body" := by
  by_cases h1 : t = "path"
  · exact Or.inl h1
  by_cases h2 : t = "query"
  · exact Or.inr (Or.inl h2)
  by_cases h3 : t = "body"
  · exact Or.inr (Or.inr h3)
  exfalso
  simp [validPT, h1, h2, h3] at h

theorem kget_kdel (kw : Dict) (n m : String) :
    kget (kdel kw n) m = if m = n then Value.vNone else kget kw m := by
  induction kw with
  | nil => simp [kget, kdel, ite_self]
  | cons kv rest ih =>
    obtain ⟨k, v⟩ := kv
    show kget (if k = n then kdel rest n else (k, v) :: kdel rest n) m = _
    by_cases hkn : k = n
    · rw [if_pos hkn, ih]
      by_cases hmn : m = n
      · rw [if_pos hmn, if_pos hmn]
      · rw [if_neg hmn, if_neg hmn]
        show kget rest m = if k = m then v else kget rest m
        rw [if_neg (fun h : k = m => hmn (h ▸ hkn))]
    · rw [if_neg hkn]
      show (if k = m then v else kget (kdel rest n) m)
        = if m = n then Value.vNone else kget ((k, v) :: rest) m
      by_cases hkm : k = m
      · rw [if_pos hkm, if_neg (fun h : m = n => hkn (hkm.trans h))]
        show v = if k = m then v else kget rest m
        rw [if_pos hkm]
      · rw [if_neg hkm, ih]
        by_cases hmn : m = n
        · rw [if_pos hmn, if_pos hmn]
        · rw [if_neg hmn, if_neg hmn]
          show kget rest m = if k = m then v else kget rest m
          rw [if_neg hkm]

/-- Binding-loop induction core: if the declared parameter names are
distinct, every declared paramType is one the loop supports, every body
argument supplied is a dict (or absent), and some required parameter has
no value in the working set, then the loop raises the missing-required
message of such a parameter. -/
theorem processParams_missing_required (nick : String) (ps : List Param) :
    ∀ st : BindState,
      (ps.all fun p => validPT p.paramType) = true →
      (ps.all fun p => !(p.paramType == "body")
        || isDictOrNone (collapse (kget st.kwargs p.name))) = true →
      (ps.map Param.name).Nodup →
      (ps.any fun p => p.required && isNoneV (kget st.kwargs p.name)) = true →
      ∃ q, q ∈ ps ∧ q.required = true ∧ isNoneV (kget st.kwargs q.name) = true ∧
        processParams nick ps st = Except.error (missingMsg q.name nick) := by
  induction ps with
  | nil => intro st _ _ _ h3; simp at h3
  | cons p rest ih =>
    intro st h1 h2 hnd h3
    rw [List.all_cons, Bool.and_eq_true] at h1 h2
    obtain ⟨hp1, hr1⟩ := h1
    obtain ⟨hp2, hr2⟩ := h2
    rw [List.map_cons, List.nodup_cons] at hnd
    obtain ⟨hpn, hndr⟩ := hnd
    by_cases hnv : kget st.kwargs p.name = Value.vNone
    · -- value absent for the head parameter
      have hcol : collapse (kget st.kwargs p.name) = Value.vNone := by rw [hnv]; rfl
      by_cases hreq : p.required
      · refine ⟨p, List.mem_cons_self _ _, hreq, ?_, ?_⟩
        · rw [hnv]; rfl
        · simp [processParams, hcol, hreq]
      · have hstep : processParams nick (p :: rest) st = processParams nick rest st := by
          simp [processParams, hcol, hreq]
        rw [List.any_cons] at h3
        have hhead : (p.required && isNoneV (kget st.kwargs p.name)) = false := by
          simp [hreq]
        rw [hhead, Bool.false_or] at h3
        obtain ⟨q, hqm, hqr, hqn, hqe⟩ := ih st hr1 hr2 hndr h3
        exact ⟨q, List.mem_cons_of_mem _ hqm, hqr, hqn, by rw [hstep]; exact hqe⟩
    · -- value present for the head parameter: it is consumed and the loop
      -- continues on a working set that agrees with the old one on every
      -- remaining (distinct) name
      have hne : ∀ q ∈ rest, q.name ≠ p.name := by
        intro q hq heq
        exact hpn (heq ▸ List.mem_map_of_mem Param.name hq)
      have hnvb : isNoneV (kget st.kwargs p.name) = false := by
        cases hg : kget st.kwargs p.name with
        | vNone => exact absurd hg hnv
        | vStr s => rfl
        | vInt n => rfl
        | vList xs => rfl
        | vDict d => rfl
      have h3r : (rest.any fun q => q.required && isNoneV (kget st.kwargs q.name)) = true := by
        rw [List.any_cons, hnvb, Bool.and_false, Bool.false_or] at h3
        exact h3
      have hkd : ∀ q ∈ rest, kget (kdel st.kwargs p.name) q.name = kget st.kwargs q.name := by
        intro q hq
        rw [kget_kdel, if_neg (hne q hq)]
      have hr2' : ∀ kw' : Dict, kw' = kdel st.kwargs p.name →
          (rest.all fun q => !(q.paramType == "body")
            || isDictOrNone (collapse (kget kw' q.name))) = true := by
        intro kw' hkw'
        subst hkw'
        rw [List.all_eq_true] at hr2 ⊢
        intro q hq
        rw [hkd q hq]
        exact hr2 q hq
      have h3' : ∀ kw' : Dict, kw' = kdel st.kwargs p.name →
          (rest.any fun q => q.required && isNoneV (kget kw' q.name)) = true := by
        intro kw' hkw'
        subst hkw'
        rw [List.any_eq_true] at h3r ⊢
        obtain ⟨q, hq, hqt⟩ := h3r
        exact ⟨q, hq, by rw [hkd q hq]; exact hqt⟩
      have hfin : ∀ st' : BindState, st'.kwargs = kdel st.kwargs p.name →
          processParams nick (p :: rest) st = processParams nick rest st' →
          ∃ q, q ∈ p :: rest ∧ q.required = true ∧
            isNoneV (kget st.kwargs q.name) = true ∧
            processParams nick (p :: rest) st = Except.error (missingMsg q.name nick) := by
        intro st' hkw' hstep
        obtain ⟨q, hqm, hqr, hqn, hqe⟩ := ih st' hr1 (hr2' st'.kwargs hkw') hndr (h3' st'.kwargs hkw')
        refine ⟨q, List.mem_cons_of_mem _ hqm, hqr, ?_, by rw [hstep]; exact hqe⟩
        rw [hkw', hkd q hqm] at hqn
        exact hqn
      cases hcv : collapse (kget st.kwargs p.name) with
      | vNone => exact absurd ((collapse_eq_vNone_iff _).mp hcv) hnv
      | vList xs => exact absurd hcv (collapse_ne_vList _ _)
      | vStr s =>
        cases validPT_cases _ hp1 with
        | inl hpt =>
          exact hfin
            ⟨strReplace st.uri ("\x7b" ++ p.name ++ "\x7d") (quotePlus (pyStr (Value.vStr s))),
             st.params, st.data, kdel st.kwargs p.name⟩ rfl
            (by simp [processParams, hcv, hpt])
        | inr h2 =>
          cases h2 with
          | inl hpt =>
            exact hfin
              ⟨st.uri, dictSet st.params p.name (Value.vStr s), st.data, kdel st.kwargs p.name⟩ rfl
              (by simp [processParams, hcv, hpt])
          | inr hpt =>
            rw [hpt] at hp2
            rw [hcv] at hp2
            simp [isDictOrNone] at hp2
      | vInt n =>
        cases validPT_cases _ hp1 with
        | inl hpt =>
          exact hfin
            ⟨strReplace st.uri ("\x7b" ++ p.name ++ "\x7d") (quotePlus (pyStr (Value.vInt n))),
             st.params, st.data, kdel st.kwargs p.name⟩ rfl
            (by simp [processParams, hcv, hpt])
        | inr h2 =>
          cases h2 with
          | inl hpt =>
            exact hfin
              ⟨st.uri, dictSet st.params p.name (Value.vInt n), st.data, kdel st.kwargs p.name⟩ rfl
              (by simp [processParams, hcv, hpt])
          | inr hpt =>
            rw [hpt] at hp2
            rw [hcv] at hp2
            simp [isDictOrNone] at hp2
      | vDict dv =>
        cases validPT_cases _ hp1 with
        | inl hpt =>
          exact hfin
            ⟨strReplace st.uri ("\x7b" ++ p.name ++ "\x7d") (quotePlus (pyStr (Value.vDict dv))),
             st.params, st.data, kdel st.kwargs p.name⟩ rfl
            (by simp [processParams, hcv, hpt])
        | inr h2 =>
          cases h2 with
          | inl hpt =>
            exact hfin
              ⟨st.uri, dictSet st.params p.name (Value.vDict dv), st.data, kdel st.kwargs p.name⟩ rfl
              (by simp [processParams, hcv, hpt])
          | inr hpt =>
            exact hfin
              ⟨st.uri, st.params,
               some (match st.data with
                     | some d => if d.isEmpty then dv else dictUpdate d dv
                     | none => dv),
               kdel st.kwargs p.name⟩ rfl
              (by simp [processParams, hcv, hpt])

/-! Claim theorems. -/

/-- C1: the dispatched target is `urljoin(uri, urlencode(params))`, not the
bound URI concatenated with the encoded query string.  At an operation with
uri `http://h/api/op` and the single query argument `m = "1"`, the HTTP
fetch goes to `http://h/api/m=1`: the encoded query replaces the last path
segment of the URI and no `?` separator is produced, so the target differs
from the URI followed by the query string.  For the WebSocket dispatch the
divergence is worse: the URI has been rewritten to the `ws` scheme, which
Python 2 `uses_relative` does not contain, so `urljoin` returns the encoded
query string itself and the connect target is the bare `app=x`.  Only an
empty query map leaves the URI intact. -/
theorem urljoin_target_diverges_from_concat :
    OperationObj.call ⟨"http://h/api/op", ⟨"listPets", "GET", false, [⟨"m", "query", false⟩]⟩⟩
        [("m", Value.vStr "1")] =
      Except.ok (Dispatched.httpFetch "http://h/api/m=1" "GET" none none) ∧
    OperationObj.call ⟨"http://h/api/events", ⟨"eventWs", "GET", true, [⟨"app", "query", true⟩]⟩⟩
        [("app", Value.vStr "x")] =
      Except.ok (Dispatched.wsConnect "app=x") ∧
    "http://h/api/m=1" ≠ "http://h/api/op" ++ "m=1" ∧
    "http://h/api/m=1" ≠ "http://h/api/op" ++ "?" ++ "m=1" ∧
    "app=x" ≠ "ws://h/api/events" ++ "?" ++ "app=x" ∧
    urljoin "http://h/api/op" (urlencode []) = "http://h/api/op" ∧
    urljoin "ws://h/api/events" (urlencode []) = "ws://h/api/events" :=
  ⟨rfl, rfl, by decide, by decide, by decide, rfl, rfl⟩

/-- C2 counterexample: when the load future fails, the completion callback
calls `f.result()` first, which re-raises the load error, so a supplied
`on_load` does not fire — refuting the claim that the callback fires in
the failure case as well. -/
theorem on_load_skipped_when_load_fails :
    onLoadFired (initLoadCallback (Except.error "load failed" : Except String Unit) true) = false ∧
    initLoadCallback (Except.error "load failed" : Except String Unit) true
      = Except.error "load failed" :=
  ⟨rfl, rfl⟩

/-- C2 (amended): the supplied callback fires exactly once when load
succeeds; when load raises, the wiring re-raises the error (it is not
swallowed) and the callback does not fire. -/
theorem on_load_fires_iff_load_succeeds (α ε : Type) (d : α) (e : ε) (b : Bool) :
    initLoadCallback (Except.ok d : Except ε α) true = Except.ok true ∧
    onLoadFired (initLoadCallback (Except.ok d : Except ε α) true) = true ∧
    initLoadCallback (Except.error e : Except ε α) b = Except.error e ∧
    onLoadFired (initLoadCallback (Except.error e : Except ε α) b) = false :=
  ⟨rfl, rfl, rfl, rfl⟩

theorem on_load_fires_iff_load_succeeds_witness :
    initLoadCallback (Except.ok 0 : Except String Nat) true = Except.ok true ∧
    onLoadFired (initLoadCallback (Except.ok 0 : Except String Nat) true) = true ∧
    initLoadCallback (Except.error "boom" : Except String Nat) true = Except.error "boom" ∧
    onLoadFired (initLoadCallback (Except.error "boom" : Except String Nat) true) = false :=
  on_load_fires_iff_load_succeeds Nat String 0 "boom" true

/-- C3 counterexample: an argument mapping in which a required parameter
(`petId`) is missing but an earlier declared body parameter is supplied a
non-dict value fails with the body-type error, which is not the
missing-required message and does not even mention `petId`. -/
theorem missing_required_error_preempted :
    OperationObj.call ⟨"http://h/pets/\x7bpetId\x7d", ⟨"op2", "POST", false,
        [⟨"payload", "body", false⟩, ⟨"petId", "path", true⟩]⟩⟩
      [("payload", Value.vStr "oops")] = Except.error dictBodyMsg ∧
    dictBodyMsg ≠ missingMsg "petId" "op2" ∧
    containsSub "petId".toList dictBodyMsg.toList = false :=
  ⟨rfl, by decide, by decide⟩

/-- C3 (amended): for every operation whose declared paramTypes are all
supported, whose declared parameter names are distinct, and every argument
mapping whose supplied body values are dicts, if some declared required
parameter has no value present then invocation fails before any transport
call with the missing-required-parameter error naming such a parameter and
the operation nickname. -/
theorem missing_required_param_raises (o : OperationObj) (kwargs : Dict)
    (h1 : (o.json.parameters.all fun p => validPT p.paramType) = true)
    (h2 : (o.json.parameters.all fun p => !(p.paramType == "body")
      || isDictOrNone (collapse (kget kwargs p.name))) = true)
    (hnd : (o.json.parameters.map Param.name).Nodup)
    (h3 : (o.json.parameters.any fun p => p.required && isNoneV (kget kwargs p.name)) = true) :
    ∃ q, q ∈ o.json.parameters ∧ q.required = true ∧ isNoneV (kget kwargs q.name) = true ∧
      OperationObj.call o kwargs = Except.error (missingMsg q.name o.json.nickname) := by
  obtain ⟨q, hqm, hqr, hqn, hqe⟩ :=
    processParams_missing_required o.json.nickname o.json.parameters
      ⟨o.uri, [], none, kwargs⟩ h1 h2 hnd h3
  refine ⟨q, hqm, hqr, hqn, ?_⟩
  simp only [OperationObj.call]
  rw [hqe]

theorem missing_required_param_raises_witness :
    ∃ q, q ∈ (⟨"http://h/pets/\x7bpetId\x7d",
        ⟨"getPet", "GET", false, [⟨"petId", "path", true⟩]⟩⟩ : OperationObj).json.parameters ∧
      q.required = true ∧ isNoneV (kget [] q.name) = true ∧
      OperationObj.call ⟨"http://h/pets/\x7bpetId\x7d",
          ⟨"getPet", "GET", false, [⟨"petId", "path", true⟩]⟩⟩ []
        = Except.error (missingMsg q.name "getPet") :=
  missing_required_param_raises
    ⟨"http://h/pets/\x7bpetId\x7d", ⟨"getPet", "GET", false, [⟨"petId", "path", true⟩]⟩⟩
    [] (by decide) (by decide) (by decide) (by decide)

/-- C4: a supplied body value that is not a dict raises the body-type
error before any transport call (shown for string, int and list values —
a list is first collapsed to its CSV string and still rejected); several
body dicts merge into one accumulated body in declaration order, later
keys overwriting earlier ones on conflict. -/
theorem body_params_merge_and_require_dict :
    (∀ (nick method uri pb s : String) (req : Bool),
      OperationObj.call ⟨uri, ⟨nick, method, false, [⟨pb, "body", req⟩]⟩⟩
        [(pb, Value.vStr s)] = Except.error dictBodyMsg) ∧
    (∀ (nick method uri pb : String) (req : Bool) (n : Int),
      OperationObj.call ⟨uri, ⟨nick, method, false, [⟨pb, "body", req⟩]⟩⟩
        [(pb, Value.vInt n)] = Except.error dictBodyMsg) ∧
    (∀ (nick method uri pb : String) (req : Bool) (xs : List String),
      OperationObj.call ⟨uri, ⟨nick, method, false, [⟨pb, "body", req⟩]⟩⟩
        [(pb, Value.vList xs)] = Except.error dictBodyMsg) ∧
    processParams "op" [⟨"b1", "body", true⟩, ⟨"b2", "body", true⟩]
        ⟨"http://h/x", [], none,
         [("b1", Value.vDict [("a", Value.vInt 1)]), ("b2", Value.vDict [("b", Value.vInt 2)])]⟩ =
      Except.ok ⟨"http://h/x", [], some [("a", Value.vInt 1), ("b", Value.vInt 2)], []⟩ ∧
    processParams "op" [⟨"b1", "body", true⟩, ⟨"b2", "body", true⟩]
        ⟨"http://h/x", [], none,
         [("b1", Value.vDict [("x", Value.vInt 1), ("y", Value.vInt 2)]),
          ("b2", Value.vDict [("y", Value.vInt 3), ("z", Value.vInt 4)])]⟩ =
      Except.ok ⟨"http://h/x", [],
        some [("x", Value.vInt 1), ("y", Value.vInt 3), ("z", Value.vInt 4)], []⟩ := by
  refine ⟨?_, ?_, ?_, rfl, rfl⟩
  · intro nick method uri pb s req
    simp [OperationObj.call, processParams, kget, collapse]
  · intro nick method uri pb req n
    simp [OperationObj.call, processParams, kget, collapse]
  · intro nick method uri pb req xs
    simp [OperationObj.call, processParams, kget, collapse]

/-- C5: a WebSocket-only operation whose arguments bind to a truthy
(non-empty) body fails with the not-implemented error; the result is the
raised message, so neither a WebSocket connect nor an HTTP fetch is
dispatched. -/
theorem websocket_body_unsupported (o : OperationObj) (kwargs : Dict) (st : BindState)
    (hbind : processParams o.json.nickname o.json.parameters ⟨o.uri, [], none, kwargs⟩
      = Except.ok st)
    (hkw : st.kwargs = [])
    (hws : o.json.is_websocket = true)
    (hdata : dataTruthy st.data = true) :
    OperationObj.call o kwargs = Except.error wsBodyMsg := by
  cases hd : st.data with
  | none => rw [hd] at hdata; exact absurd hdata (by simp [dataTruthy])
  | some d =>
    rw [hd] at hdata
    have hde : d.isEmpty = false := by
      by_cases h : d.isEmpty
      · rw [dataTruthy] at hdata
        rw [h] at hdata
        exact absurd hdata (by simp)
      · exact Bool.of_not_eq_true h
    simp [OperationObj.call, hbind, dispatchStep, hkw, hws, hd, serializeBody, hde]

theorem websocket_body_unsupported_witness :
    OperationObj.call ⟨"http://h/api/events",
        ⟨"sendEvent", "POST", true, [⟨"payload", "body", false⟩]⟩⟩
      [("payload", Value.vDict [("k", Value.vStr "v")])] = Except.error wsBodyMsg :=
  websocket_body_unsupported
    ⟨"http://h/api/events", ⟨"sendEvent", "POST", true, [⟨"payload", "body", false⟩]⟩⟩
    [("payload", Value.vDict [("k", Value.vStr "v")])]
    ⟨"http://h/api/events", [], some [("k", Value.vStr "v")], []⟩
    rfl rfl rfl rfl

/-- C6: a supplied path parameter substitutes the literal token
`\x7bname\x7d` in the URI template by the quote-plus encoding of the
value; in particular the value `"a b"` substitutes as `a+b`. -/
theorem path_param_quote_plus_substitution (uri pn s nick method : String) (req : Bool) :
    processParams nick [⟨pn, "path", req⟩] ⟨uri, [], none, [(pn, Value.vStr s)]⟩ =
      Except.ok ⟨strReplace uri ("\x7b" ++ pn ++ "\x7d") (quotePlus s), [], none, []⟩ ∧
    quotePlus "a b" = "a+b" ∧
    quotePlus "a/b:c?" = "a%2Fb%3Ac%3F" ∧
    strReplace "/pets/\x7bname\x7d" "\x7bname\x7d" (quotePlus "a b") = "/pets/a+b" ∧
    OperationObj.call ⟨"http://h/pets/\x7bid\x7d", ⟨nick, method, false, [⟨"id", "path", req⟩]⟩⟩
        [("id", Value.vStr "a b")] =
      Except.ok (Dispatched.httpFetch "http://h/pets/a+b" method none none) := by
  refine ⟨?_, rfl, rfl, rfl, rfl⟩
  simp [processParams, kget, collapse, kdel, pyStr]

theorem path_param_quote_plus_substitution_witness :
    processParams "getPet" [⟨"id", "path", true⟩]
        ⟨"http://h/pets/\x7bid\x7d", [], none, [("id", Value.vStr "a b")]⟩ =
      Except.ok ⟨strReplace "http://h/pets/\x7bid\x7d" ("\x7b" ++ "id" ++ "\x7d")
        (quotePlus "a b"), [], none, []⟩ :=
  (path_param_quote_plus_substitution "http://h/pets/\x7bid\x7d" "id" "a b" "getPet" "GET"
    true).1

/-- C7: a list-valued argument is collapsed to the single comma-joined
string before location processing, every other value kind passes through
`collapse` unchanged, and a list-valued query argument binds into the
query map as that single CSV string. -/
theorem list_args_collapse_to_csv (nick uri pn : String) (req : Bool) (xs : List String) :
    processParams nick [⟨pn, "query", req⟩] ⟨uri, [], none, [(pn, Value.vList xs)]⟩ =
      Except.ok ⟨uri, [(pn, Value.vStr (joinSep "," xs))], none, []⟩ ∧
    collapse (Value.vList xs) = Value.vStr (joinSep "," xs) ∧
    (∀ s, collapse (Value.vStr s) = Value.vStr s) ∧
    (∀ n : Int, collapse (Value.vInt n) = Value.vInt n) ∧
    (∀ d : List (String × Value), collapse (Value.vDict d) = Value.vDict d) ∧
    collapse Value.vNone = Value.vNone ∧
    joinSep "," ["x", "y", "z"] = "x,y,z" := by
  refine ⟨?_, rfl, fun s => rfl, fun n => rfl, fun d => rfl, rfl, rfl⟩
  simp [processParams, kget, collapse, kdel, dictSet]

theorem list_args_collapse_to_csv_witness :
    processParams "listPets" [⟨"tags", "query", false⟩]
        ⟨"http://h/pets", [], none, [("tags", Value.vList ["x", "y", "z"])]⟩ =
      Except.ok ⟨"http://h/pets", [("tags", Value.vStr (joinSep "," ["x", "y", "z"]))],
        none, []⟩ :=
  (list_args_collapse_to_csv "listPets" "http://h/pets" "tags" false ["x", "y", "z"]).1

/-- C8: a successfully bound invocation with a truthy accumulated body
dispatches the HTTP fetch with the JSON serialization of the body and
exactly the two json headers (whose names match Content-Type and Accept
up to the case-insensitivity of HTTP header field names); with a falsy
accumulated body the dispatched fetch carries no body and no headers, and
a WebSocket dispatch without body data carries neither. -/
theorem http_body_and_headers (o : OperationObj) (kwargs : Dict) (st : BindState)
    (hbind : processParams o.json.nickname o.json.parameters ⟨o.uri, [], none, kwargs⟩
      = Except.ok st)
    (hkw : st.kwargs = []) :
    (o.json.is_websocket = false →
      OperationObj.call o kwargs = Except.ok (Dispatched.httpFetch
        (urljoin st.uri (urlencode st.params)) o.json.httpMethod
        (serializeBody st.data).1 (serializeBody st.data).2)) ∧
    (∀ d, st.data = some d → d.isEmpty = false →
      (serializeBody st.data).1 = some (jsonDumps d) ∧
      (serializeBody st.data).2 = some [("Content-type", "application/json"),
                                        ("Accept", "application/json")]) ∧
    (dataTruthy st.data = false → serializeBody st.data = (none, none)) ∧
    headerNamesMatchCI "Content-type" "Content-Type" = true ∧
    headerNamesMatchCI "Accept" "Accept" = true ∧
    (o.json.is_websocket = true → dataTruthy st.data = false →
      OperationObj.call o kwargs = Except.ok (Dispatched.wsConnect
        (urljoin (wsScheme st.uri) (urlencode st.params)))) := by
  have hfalsy : dataTruthy st.data = false → serializeBody st.data = (none, none) := by
    intro hdt
    cases hd : st.data with
    | none => rfl
    | some d =>
      rw [hd, dataTruthy] at hdt
      have hde : d.isEmpty = true := by
        by_cases h : d.isEmpty
        · exact h
        · rw [Bool.of_not_eq_true h] at hdt
          exact absurd hdt (by simp)
      simp [serializeBody, hde]
  refine ⟨?_, ?_, hfalsy, rfl, rfl, ?_⟩
  · intro hws
    simp [OperationObj.call, hbind, dispatchStep, hkw, hws]
  · intro d hd hde
    rw [hd]
    simp [serializeBody, hde]
  · intro hws hdt
    have hser := hfalsy hdt
    simp [OperationObj.call, hbind, dispatchStep, hkw, hws, hser]

theorem http_body_and_headers_witness :
    OperationObj.call ⟨"http://h/api/pets", ⟨"addPet", "POST", false, [⟨"pet", "body", true⟩]⟩⟩
        [("pet", Value.vDict [("a", Value.vInt 1)])] =
      Except.ok (Dispatched.httpFetch "http://h/api/pets" "POST"
        (some (jsonDumps [("a", Value.vInt 1)]))
        (some [("Content-type", "application/json"), ("Accept", "application/json")])) :=
  (http_body_and_headers
    ⟨"http://h/api/pets", ⟨"addPet", "POST", false, [⟨"pet", "body", true⟩]⟩⟩
    [("pet", Value.vDict [("a", Value.vInt 1)])]
    ⟨"http://h/api/pets", [], some [("a", Value.vInt 1)], []⟩
    rfl rfl).1 rfl

/-- C9: reading `api_docs` or `resources` on a freshly constructed client
raises the not-loaded error, and after a successful load the same reads
return the stored document and the built resource mapping. -/
theorem api_docs_resources_guarded (doc : ApiDocs) :
    SwaggerClientState.api_docs freshClient = Except.error "Not loaded" ∧
    SwaggerClientState.resources freshClient = Except.error "Not loaded" ∧
    SwaggerClientState.api_docs (SwaggerClientState.load freshClient doc) = Except.ok doc ∧
    SwaggerClientState.resources (SwaggerClientState.load freshClient doc)
      = Except.ok (buildResources doc) :=
  ⟨rfl, rfl, rfl, rfl⟩

theorem api_docs_resources_guarded_witness :
    SwaggerClientState.api_docs freshClient = Except.error "Not loaded" ∧
    SwaggerClientState.resources freshClient = Except.error "Not loaded" ∧
    SwaggerClientState.api_docs (SwaggerClientState.load freshClient ⟨"http://h", []⟩)
      = Except.ok ⟨"http://h", []⟩ ∧
    SwaggerClientState.resources (SwaggerClientState.load freshClient ⟨"http://h", []⟩)
      = Except.ok (buildResources ⟨"http://h", []⟩) :=
  api_docs_resources_guarded ⟨"http://h", []⟩

/-- C10: supplying `None` for a declared non-required parameter is treated
as absence during binding (the parameter is skipped without error), but
the argument is never consumed from the working set, so the invocation
fails afterwards with the unknown-parameters error listing that name. -/
theorem none_valued_declared_param_unknown (nick method uri pn ptype : String) (ws : Bool) :
    OperationObj.call ⟨uri, ⟨nick, method, ws, [⟨pn, ptype, false⟩]⟩⟩ [(pn, Value.vNone)] =
      Except.error (unknownParamsMsg nick [pn]) := by
  simp [OperationObj.call, processParams, kget, collapse, dispatchStep]

theorem none_valued_declared_param_unknown_witness :
    OperationObj.call ⟨"http://h/pets", ⟨"listPets", "GET", false, [⟨"limit", "query", false⟩]⟩⟩
        [("limit", Value.vNone)] =
      Except.error (unknownParamsMsg "listPets" ["limit"]) :=
  none_valued_declared_param_unknown "listPets" "GET" "http://h/pets" "limit" "query" false
